import Mathlib

/-!
Verification of the dual-engine emotional TTS system.

The embedding below translates the engine-selection / fallback coordinator
(`DualTTSSystem` in `solution.py`), the two adapters' style-to-parameter
mappings (`CoquiTTSEngine._get_style_params`, `PyttsxEngine._apply_style`),
the request boundaries (`synthesize_speech`, `synthesize_speech_async`,
`process_async_synthesis` in `application/app.py`, and `main` /
`validate_inputs` in `solution.py`).

Modelling conventions:
* Each engine adapter's `synthesize` first checks its availability flag and
  returns `False` when unavailable; when available, the outcome of the
  underlying third-party library call on the request at hand is modelled by
  an oracle `beh : EngineId → Bool`.  The text, output path, voice and speed
  arguments are forwarded to the engines opaquely and are absorbed into the
  oracle; they do not influence the coordinator's control flow.
* Python floats are modelled by ℚ, Python `int(...)` truncation toward zero
  by `pyTrunc`.
* Synthesis traces record the adapter `synthesize` invocations in order, so
  that "exactly one call" claims are about the recorded list.
-/

/-- Identity of the two engine adapters held by the coordinator. -/
inductive EngineId
  | coqui
  | pyttsx
deriving DecidableEq, Repr

/-- Availability flags probed at initialization (`_check_and_init` of each
adapter sets `self.available`). -/
structure EngineAvail where
  coqui : Bool
  pyttsx : Bool
deriving DecidableEq, Repr

/-- Coordinator state established by `DualTTSSystem.__init__`
(`solution.py` lines 311-326): the availability flags plus the designated
primary engine and the optional fallback engine. -/
structure DualTTSSystem where
  avail : EngineAvail
  primary : EngineId
  fallback : Option EngineId
deriving DecidableEq, Repr

/-- `DualTTSSystem.__init__`: if Coqui is available it is primary with
pyttsx3 as fallback (regardless of pyttsx3's own availability); otherwise if
pyttsx3 is available it is primary with no fallback; otherwise the process
exits (`sys.exit(1)`), modelled as `none`. -/
def initSystem (a : EngineAvail) : Option DualTTSSystem :=
  if a.coqui then some ⟨a, .coqui, some .pyttsx⟩
  else if a.pyttsx then some ⟨a, .pyttsx, none⟩
  else none

/-- One adapter `synthesize` call: returns `false` immediately when the
adapter is unavailable (`if not self.available: return False`), otherwise
the oracle decides whether the wrapped library call succeeded. -/
def engineSynthesize (sys : DualTTSSystem) (beh : EngineId → Bool) : EngineId → Bool
  | .coqui => if sys.avail.coqui then beh .coqui else false
  | .pyttsx => if sys.avail.pyttsx then beh .pyttsx else false

/-- Engine selection of `DualTTSSystem.synthesize` (`solution.py` lines
331-344): `"auto"` picks the primary; `"coqui"` substitutes pyttsx3 when
Coqui is unavailable; `"pyttsx3"` picks pyttsx3 unconditionally; anything
else is an unknown engine (`none`, the method logs and returns `False`). -/
def selectEngine (sys : DualTTSSystem) (engine : String) : Option EngineId :=
  if engine = "auto" then some sys.primary
  else if engine = "coqui" then
    if sys.avail.coqui then some .coqui else some .pyttsx
  else if engine = "pyttsx3" then some .pyttsx
  else none

/-- `DualTTSSystem.synthesize` (`solution.py` lines 328-354).  Returns the
overall success flag together with the ordered list of adapter `synthesize`
invocations.  The fallback retry happens exactly when the first attempt
failed, `self.fallback` is set, and the selected engine was the primary. -/
def DualTTSSystem.synthesize (sys : DualTTSSystem) (beh : EngineId → Bool)
    (engine : String) : Bool × List EngineId :=
  match selectEngine sys engine with
  | none => (false, [])
  | some sel =>
    let success := engineSynthesize sys beh sel
    match sys.fallback with
    | some fb =>
      if success = false ∧ sel = sys.primary then
        (engineSynthesize sys beh fb, [sel, fb])
      else
        (success, [sel])
    | none => (success, [sel])

example : (DualTTSSystem.mk ⟨true, true⟩ .coqui (some .pyttsx)).synthesize
    (fun _ => false) "auto" = (false, [.coqui, .pyttsx]) := by decide

example : (DualTTSSystem.mk ⟨false, true⟩ .pyttsx none).synthesize
    (fun _ => false) "coqui" = (false, [.pyttsx]) := by decide

example : (DualTTSSystem.mk ⟨true, false⟩ .coqui (some .pyttsx)).synthesize
    (fun _ => true) "pyttsx3" = (false, [.pyttsx]) := by decide

/-- Intensity rescaling of `CoquiTTSEngine._get_style_params`
(`solution.py` line 97): `intensity_scale = 0.5 + (intensity / 100.0)`. -/
def coquiIntensityScale (intensity : ℤ) : ℚ := 1 / 2 + (intensity : ℚ) / 100

/-- Style table of `CoquiTTSEngine._get_style_params` (`solution.py` lines
100-108).  The engine parameter dictionary holds at most a `speed` entry;
`"neutral"` maps to the empty dictionary and an unknown style hits the
`.get` default `{}`.  Note the `"somber"` entry divides by the intensity
scale (`0.8 / intensity_scale`) where the other styles multiply. -/
def coquiStyleParams (style : String) (intensity : ℤ) : Option ℚ :=
  if style = "neutral" then none
  else if style = "enthusiastic" then some (11 / 10 * coquiIntensityScale intensity)
  else if style = "somber" then some (4 / 5 / coquiIntensityScale intensity)
  else if style = "confident" then some (1 * coquiIntensityScale intensity)
  else if style = "authoritative" then some (9 / 10 * coquiIntensityScale intensity)
  else none

/-- Intensity rescaling of `PyttsxEngine._apply_style` (`solution.py` line
236): `intensity_factor = 0.5 + (intensity / 100.0)`. -/
def pyttsxIntensityFactor (intensity : ℤ) : ℚ := 1 / 2 + (intensity : ℚ) / 100

/-- Per-style rate and volume multipliers of `PyttsxEngine._apply_style`. -/
structure StyleConfig where
  rate_mult : ℚ
  volume_mult : ℚ
deriving DecidableEq, Repr

/-- Style table of `PyttsxEngine._apply_style` (`solution.py` lines
239-247); an unknown style hits the `.get` default `style_configs["neutral"]`. -/
def pyttsxStyleConfig (style : String) : StyleConfig :=
  if style = "neutral" then ⟨1, 1⟩
  else if style = "enthusiastic" then ⟨13 / 10, 6 / 5⟩
  else if style = "somber" then ⟨7 / 10, 4 / 5⟩
  else if style = "confident" then ⟨11 / 10, 11 / 10⟩
  else if style = "authoritative" then ⟨9 / 10, 1⟩
  else ⟨1, 1⟩

/-- Python `int(...)` applied to a float: truncation toward zero. -/
def pyTrunc (q : ℚ) : ℤ := if 0 ≤ q then ⌊q⌋ else ⌈q⌉

/-- Parameter computation of `PyttsxEngine._apply_style` (`solution.py`
lines 248-254): `new_rate = int(base_rate * rate_mult * intensity_factor)`
and `new_volume = min(1.0, base_volume * volume_mult * intensity_factor)`,
for the engine's current base rate and base volume properties. -/
def pyttsxApplyStyle (base_rate : ℤ) (base_volume : ℚ) (style : String)
    (intensity : ℤ) : ℤ × ℚ :=
  let f := pyttsxIntensityFactor intensity
  let c := pyttsxStyleConfig style
  (pyTrunc ((base_rate : ℚ) * c.rate_mult * f),
   min 1 (base_volume * c.volume_mult * f))

example : coquiIntensityScale 0 = 1 / 2 := by norm_num [coquiIntensityScale]

example : coquiStyleParams "somber" 100 = some (8 / 15) := by
  simp [coquiStyleParams]
  norm_num [coquiIntensityScale]

/-- Python `not text.strip()`: true exactly when the text is empty or
whitespace-only.  (`str.strip()` with no arguments removes whitespace, so
the stripped string is empty iff every character is whitespace.) -/
def strippedEmpty (s : String) : Bool := s.data.all Char.isWhitespace

/-- Synthesis request body (`TTSRequest` in `application/app.py` lines
47-53); the optional voice and speed fields are forwarded to the engines
opaquely and are omitted here. -/
structure TTSRequest where
  text : String
  style : String
  intensity : ℤ
  engine : String
deriving DecidableEq, Repr

/-- Synchronous endpoint `POST /api/synthesize` (`application/app.py` lines
202-254): rejects empty/whitespace-only text and text longer than 1000
characters with an HTTP 400 before calling the coordinator; the intensity
field is not validated.  On the non-rejected path it returns the
coordinator's result together with the adapter invocation trace. -/
def synthesize_speech (sys : DualTTSSystem) (beh : EngineId → Bool)
    (r : TTSRequest) : Except String (Bool × List EngineId) :=
  if strippedEmpty r.text then .error "Text cannot be empty"
  else if r.text.length > 1000 then .error "Text too long (max 1000 characters)"
  else .ok (sys.synthesize beh r.engine)

/-- Background task status enumeration (`TaskStatus.status` in
`application/app.py`). -/
inductive TaskStatus
  | pending
  | processing
  | completed
  | failed
deriving DecidableEq, Repr

/-- Progress order on task statuses: pending < processing < terminal. -/
def TaskStatus.rank : TaskStatus → ℕ
  | .pending => 0
  | .processing => 1
  | .completed => 2
  | .failed => 2

/-- Asynchronous endpoint `POST /api/synthesize-async` (`application/app.py`
lines 256-289): the only validation is the empty-text check; an accepted
request stores a task record with status `pending`.  There is no length or
intensity check on this path. -/
def synthesize_speech_async (r : TTSRequest) : Except String TaskStatus :=
  if strippedEmpty r.text then .error "Text cannot be empty"
  else .ok .pending

/-- Status values written to one task record over its lifetime: `pending`
by `synthesize_speech_async`, then `processing` and finally `completed` or
`failed` by `process_async_synthesis` (`application/app.py` lines 306-363;
both the unsuccessful-synthesis branch and the exception handler write
`failed`). -/
def task_status_writes (success : Bool) : List TaskStatus :=
  [.pending, .processing, if success then .completed else .failed]

/-- Status writes for a concrete request processed by the background task,
whose outcome is the coordinator's result on that request. -/
def async_task_statuses (sys : DualTTSSystem) (beh : EngineId → Bool)
    (r : TTSRequest) : List TaskStatus :=
  task_status_writes (sys.synthesize beh r.engine).1

/-- Status a poll of `GET /api/task/{id}` observes after `t` of the task's
status writes have happened (the stored status stays at the last write once
the task is terminal). -/
def statusAt (success : Bool) (t : ℕ) : TaskStatus :=
  (task_status_writes success).getD (min t 2) .pending

/-- Filesystem abstraction for the destination path: whether a file exists
there.  Engine adapters are modelled as writing the destination only on
success; this is the reading most favourable to the no-partial-artifact
claim, and the claim is settled against it. -/
structure FsState where
  destExists : Bool
deriving DecidableEq, Repr

/-- `validate_inputs` (`solution.py` lines 397-412): rejects
empty/whitespace-only text; otherwise creates the parent directory and
`touch()`es the destination path as a writability probe — which creates an
empty file at the destination — and accepts.  The touch is modelled as
always succeeding (writable destination). -/
def validate_inputs (text : String) (fs : FsState) : Bool × FsState :=
  if strippedEmpty text then (false, fs)
  else (true, ⟨true⟩)

/-- CLI `main` (`solution.py` lines 415-508) on the synthesis path: argparse
rejects a missing/empty positional text (exit 2, `parser.error`), then an
out-of-range intensity (exit 2), then `validate_inputs` runs (exit 1 on
rejection), then the coordinator is invoked and the exit code reflects its
result.  Returns the exit code, the destination-path filesystem state, and
the adapter invocation trace.  There is no text-length bound on this path. -/
def cli_main (sys : DualTTSSystem) (beh : EngineId → Bool) (text : String)
    (intensity : ℤ) (engine : String) (fs : FsState) :
    ℤ × FsState × List EngineId :=
  if text = "" then (2, fs, [])
  else if ¬ (0 ≤ intensity ∧ intensity ≤ 100) then (2, fs, [])
  else
    let v := validate_inputs text fs
    if v.1 = false then (1, v.2, [])
    else
      let res := sys.synthesize beh engine
      (if res.1 then 0 else 1, v.2, res.2)

example : cli_main (DualTTSSystem.mk ⟨true, true⟩ .coqui (some .pyttsx))
    (fun _ => false) "Hello" 50 "auto" ⟨false⟩
    = (1, ⟨true⟩, [.coqui, .pyttsx]) := by decide

/-- Helper: the adapter invocation trace of the coordinator never exceeds
two entries, for any coordinator state, oracle and engine selector. -/
theorem synthesize_calls_le_two (sys : DualTTSSystem) (b : EngineId → Bool)
    (e : String) : ((sys.synthesize b e).2).length ≤ 2 := by
  cases h : selectEngine sys e with
  | none => simp [DualTTSSystem.synthesize, h]
  | some sel =>
    cases hf : sys.fallback with
    | none => simp [DualTTSSystem.synthesize, h, hf]
    | some fb =>
      by_cases hc : engineSynthesize sys b sel = false ∧ sel = sys.primary
      · obtain ⟨h1, rfl⟩ := hc
        simp [DualTTSSystem.synthesize, h, hf, h1]
      · simp [DualTTSSystem.synthesize, h, hf, hc]

/-- C1: whenever the selected engine is the coordinator's primary (chosen
explicitly or via "auto") and the primary's synthesize call fails, then: if
a (distinct) fallback engine is set, exactly one additional synthesize call
is made, on the fallback, and its result is returned; if no fallback is
set, failure is reported after exactly one synthesize attempt; and no
execution of the coordinator ever makes more than two synthesize calls. -/
theorem c1_primary_fallback_once (a : EngineAvail) (sys : DualTTSSystem)
    (beh : EngineId → Bool) (engine : String)
    (hinit : initSystem a = some sys)
    (hsel : selectEngine sys engine = some sys.primary)
    (hfail : engineSynthesize sys beh sys.primary = false) :
    ((∀ fb, sys.fallback = some fb →
        sys.synthesize beh engine = (engineSynthesize sys beh fb, [sys.primary, fb])
        ∧ fb ≠ sys.primary)
     ∧ (sys.fallback = none → sys.synthesize beh engine = (false, [sys.primary])))
    ∧ ∀ (e : String) (b : EngineId → Bool), ((sys.synthesize b e).2).length ≤ 2 := by
  refine ⟨⟨?_, ?_⟩, fun e b => synthesize_calls_le_two sys b e⟩
  · intro fb hfb
    unfold initSystem at hinit
    by_cases hc : a.coqui = true
    · simp only [hc, if_true] at hinit
      obtain rfl : sys = ⟨a, .coqui, some .pyttsx⟩ := by
        cases hinit
        rfl
      obtain rfl : fb = .pyttsx := by
        cases hfb
        rfl
      refine ⟨?_, by simp⟩
      simp [DualTTSSystem.synthesize, hsel, hfail]
    · by_cases hp : a.pyttsx = true
      · simp only [hc, hp, if_true, if_false, Bool.false_eq_true] at hinit
        obtain rfl : sys = ⟨a, .pyttsx, none⟩ := by
          cases hinit
          rfl
        simp at hfb
      · simp [hc, hp] at hinit
  · intro hnone
    simp [DualTTSSystem.synthesize, hsel, hnone, hfail]

/-- C1 witness: both engines available, both failing, request "auto": the
primary fails, the single fallback call is made and its (failing) result is
returned. -/
theorem c1_primary_fallback_once_witness :
    (DualTTSSystem.mk ⟨true, true⟩ .coqui (some .pyttsx)).synthesize
        (fun _ => false) "auto"
      = (engineSynthesize (DualTTSSystem.mk ⟨true, true⟩ .coqui (some .pyttsx))
          (fun _ => false) .pyttsx, [EngineId.coqui, EngineId.pyttsx]) :=
  ((c1_primary_fallback_once ⟨true, true⟩
      ⟨⟨true, true⟩, .coqui, some .pyttsx⟩ (fun _ => false) "auto"
      (by decide) (by decide) (by decide)).1.1 .pyttsx rfl).1

/-- C2 counterexample: with Coqui unavailable the designated primary is
pyttsx3, so a request explicitly naming "coqui" names the non-primary
engine; the coordinator makes exactly one synthesize call, but on pyttsx3
(the substitute), not on the named engine coqui. -/
theorem c2_counterexample :
    initSystem ⟨false, true⟩ = some ⟨⟨false, true⟩, .pyttsx, none⟩
    ∧ (DualTTSSystem.mk ⟨false, true⟩ .pyttsx none).primary ≠ EngineId.coqui
    ∧ (DualTTSSystem.mk ⟨false, true⟩ .pyttsx none).synthesize
        (fun _ => false) "coqui" = (false, [EngineId.pyttsx])
    ∧ ([EngineId.pyttsx] : List EngineId) ≠ [EngineId.coqui] := by
  refine ⟨by decide, by decide, by decide, by decide⟩

/-- C2 amended: a request that explicitly names the non-primary engine never
triggers a fallback call — exactly one synthesize invocation occurs, even on
failure, and the coordinator returns that invocation's result; the
invocation is on the named engine except when the named engine is coqui and
it is unavailable, in which case it is on pyttsx3. -/
theorem c2_nonprimary_no_fallback (a : EngineAvail) (sys : DualTTSSystem)
    (beh : EngineId → Bool) (engine : String) (e : EngineId)
    (hinit : initSystem a = some sys)
    (hname : (engine = "coqui" ∧ e = .coqui) ∨ (engine = "pyttsx3" ∧ e = .pyttsx))
    (hnp : e ≠ sys.primary) :
    sys.synthesize beh engine
      = (engineSynthesize sys beh
           (if e = .coqui ∧ sys.avail.coqui = false then .pyttsx else e),
         [if e = .coqui ∧ sys.avail.coqui = false then .pyttsx else e]) := by
  unfold initSystem at hinit
  rcases hname with ⟨rfl, rfl⟩ | ⟨rfl, rfl⟩
  · by_cases hc : a.coqui = true
    · simp only [hc, if_true] at hinit
      obtain rfl : sys = ⟨a, .coqui, some .pyttsx⟩ := by
        cases hinit
        rfl
      exact absurd rfl hnp
    · by_cases hp : a.pyttsx = true
      · simp only [hc, hp, if_true, if_false, Bool.false_eq_true] at hinit
        obtain rfl : sys = ⟨a, .pyttsx, none⟩ := by
          cases hinit
          rfl
        have hcf : a.coqui = false := by
          cases hb : a.coqui
          · rfl
          · exact absurd hb hc
        simp [DualTTSSystem.synthesize, selectEngine, engineSynthesize, hcf]
      · simp [hc, hp] at hinit
  · by_cases hc : a.coqui = true
    · simp only [hc, if_true] at hinit
      obtain rfl : sys = ⟨a, .coqui, some .pyttsx⟩ := by
        cases hinit
        rfl
      simp [DualTTSSystem.synthesize, selectEngine, engineSynthesize]
    · by_cases hp : a.pyttsx = true
      · simp only [hc, hp, if_true, if_false, Bool.false_eq_true] at hinit
        obtain rfl : sys = ⟨a, .pyttsx, none⟩ := by
          cases hinit
          rfl
        exact absurd rfl hnp
      · simp [hc, hp] at hinit

/-- C2 amended witness: Coqui unavailable, request names "coqui": one call,
on pyttsx3. -/
theorem c2_nonprimary_no_fallback_witness :
    (DualTTSSystem.mk ⟨false, true⟩ .pyttsx none).synthesize
        (fun _ => false) "coqui"
      = (engineSynthesize (DualTTSSystem.mk ⟨false, true⟩ .pyttsx none)
           (fun _ => false)
           (if EngineId.coqui = .coqui
                ∧ (DualTTSSystem.mk ⟨false, true⟩ .pyttsx none).avail.coqui = false
            then .pyttsx else EngineId.coqui),
         [if EngineId.coqui = .coqui
              ∧ (DualTTSSystem.mk ⟨false, true⟩ .pyttsx none).avail.coqui = false
          then .pyttsx else EngineId.coqui]) :=
  c2_nonprimary_no_fallback ⟨false, true⟩ ⟨⟨false, true⟩, .pyttsx, none⟩
    (fun _ => false) "coqui" .coqui (by decide) (Or.inl ⟨rfl, rfl⟩) (by decide)

/-- C3 counterexample: pyttsx3 is unavailable while Coqui is available, and
the request names "pyttsx3"; the claimed substitution does not happen — the
coordinator selects pyttsx3 itself, whose single synthesize call fails, and
Coqui (the other available engine) is never invoked. -/
theorem c3_counterexample :
    initSystem ⟨true, false⟩ = some ⟨⟨true, false⟩, .coqui, some .pyttsx⟩
    ∧ (DualTTSSystem.mk ⟨true, false⟩ .coqui (some .pyttsx)).synthesize
        (fun _ => true) "pyttsx3" = (false, [EngineId.pyttsx])
    ∧ EngineId.coqui ∉ ([EngineId.pyttsx] : List EngineId) := by
  refine ⟨by decide, by decide, by decide⟩

/-- C3 amended: substitution is one-sided.  If the request names "coqui" and
Coqui is unavailable (pyttsx3 being the available engine), the coordinator
substitutes pyttsx3 and invokes it.  If the request names "pyttsx3" and
pyttsx3 is unavailable while Coqui is available, no substitution occurs: the
single invocation is on pyttsx3 itself and the request fails. -/
theorem c3_substitution_one_sided (a : EngineAvail) (sys : DualTTSSystem)
    (beh : EngineId → Bool)
    (hinit : initSystem a = some sys) :
    (a.coqui = false → a.pyttsx = true →
      sys.synthesize beh "coqui"
        = (engineSynthesize sys beh .pyttsx, [EngineId.pyttsx]))
    ∧ (a.pyttsx = false → a.coqui = true →
      sys.synthesize beh "pyttsx3" = (false, [EngineId.pyttsx])) := by
  unfold initSystem at hinit
  constructor
  · intro hc hp
    simp only [hc, hp, if_true, if_false, Bool.false_eq_true] at hinit
    obtain rfl : sys = ⟨a, .pyttsx, none⟩ := by
      cases hinit
      rfl
    simp [DualTTSSystem.synthesize, selectEngine, hc]
  · intro hp hc
    simp only [hc, if_true] at hinit
    obtain rfl : sys = ⟨a, .coqui, some .pyttsx⟩ := by
      cases hinit
      rfl
    simp [DualTTSSystem.synthesize, selectEngine, engineSynthesize, hp]

/-- C3 amended witness: both directions applied at the concrete availability
configurations. -/
theorem c3_substitution_one_sided_witness :
    (DualTTSSystem.mk ⟨false, true⟩ .pyttsx none).synthesize
        (fun _ => true) "coqui"
      = (engineSynthesize (DualTTSSystem.mk ⟨false, true⟩ .pyttsx none)
           (fun _ => true) .pyttsx, [EngineId.pyttsx])
    ∧ (DualTTSSystem.mk ⟨true, false⟩ .coqui (some .pyttsx)).synthesize
        (fun _ => true) "pyttsx3" = (false, [EngineId.pyttsx]) :=
  ⟨(c3_substitution_one_sided ⟨false, true⟩ ⟨⟨false, true⟩, .pyttsx, none⟩
      (fun _ => true) (by decide)).1 rfl rfl,
   (c3_substitution_one_sided ⟨true, false⟩ ⟨⟨true, false⟩, .coqui, some .pyttsx⟩
      (fun _ => true) (by decide)).2 rfl rfl⟩

/-- C10: an engine selector outside {"auto", "coqui", "pyttsx3"} makes the
coordinator return failure with no adapter invocation at all (the method
logs the unknown engine and returns False; no exception escapes). -/
theorem c10_unknown_engine_rejected (sys : DualTTSSystem)
    (beh : EngineId → Bool) (engine : String)
    (h1 : engine ≠ "auto") (h2 : engine ≠ "coqui") (h3 : engine ≠ "pyttsx3") :
    sys.synthesize beh engine = (false, []) := by
  simp [DualTTSSystem.synthesize, selectEngine, h1, h2, h3]

/-- C10 witness: the selector "espeak" is rejected without any engine call. -/
theorem c10_unknown_engine_rejected_witness :
    (DualTTSSystem.mk ⟨true, true⟩ .coqui (some .pyttsx)).synthesize
        (fun _ => true) "espeak" = (false, []) :=
  c10_unknown_engine_rejected ⟨⟨true, true⟩, .coqui, some .pyttsx⟩
    (fun _ => true) "espeak" (by decide) (by decide) (by decide)

/-- C4: any style string outside the fixed enumeration {neutral,
enthusiastic, somber, confident, authoritative} yields exactly the engine
parameters of "neutral" at the same intensity, in both adapters (Coqui's
`.get(style, {})` default and pyttsx3's `.get(style, style_configs["neutral"])`
default). -/
theorem c4_unknown_style_neutral (style : String) (i : ℤ) (br : ℤ) (bv : ℚ)
    (hs : style ∉ (["neutral", "enthusiastic", "somber", "confident",
        "authoritative"] : List String))
    (hlo : 0 ≤ i) (hhi : i ≤ 100) :
    coquiStyleParams style i = coquiStyleParams "neutral" i
    ∧ pyttsxApplyStyle br bv style i = pyttsxApplyStyle br bv "neutral" i := by
  simp only [List.mem_cons, List.mem_singleton, not_or, List.not_mem_nil,
    not_false_iff, and_true] at hs
  obtain ⟨h1, h2, h3, h4, h5⟩ := hs
  constructor
  · simp [coquiStyleParams, h1, h2, h3, h4, h5]
  · simp [pyttsxApplyStyle, pyttsxStyleConfig, h1, h2, h3, h4, h5]

/-- C4 witness: the unknown style "sarcastic" at intensity 42 maps like
"neutral". -/
theorem c4_unknown_style_neutral_witness :
    coquiStyleParams "sarcastic" 42 = coquiStyleParams "neutral" 42
    ∧ pyttsxApplyStyle 200 1 "sarcastic" 42 = pyttsxApplyStyle 200 1 "neutral" 42 :=
  c4_unknown_style_neutral "sarcastic" 42 200 1 (by decide) (by decide) (by decide)

/-- C5: the intensity-to-multiplier rescaling hits the documented endpoints
exactly (0 maps to exactly 0.5 and 100 to exactly 1.5) in both adapters'
mappings, and it is linear: any two intensities differ in multiplier by
exactly their difference divided by 100. -/
theorem c5_intensity_endpoints_linear :
    coquiIntensityScale 0 = 1 / 2 ∧ coquiIntensityScale 100 = 3 / 2
    ∧ pyttsxIntensityFactor 0 = 1 / 2 ∧ pyttsxIntensityFactor 100 = 3 / 2
    ∧ (∀ i j : ℤ, coquiIntensityScale i - coquiIntensityScale j
        = ((i : ℚ) - (j : ℚ)) / 100)
    ∧ (∀ i j : ℤ, pyttsxIntensityFactor i - pyttsxIntensityFactor j
        = ((i : ℚ) - (j : ℚ)) / 100) :=
  ⟨by norm_num [coquiIntensityScale], by norm_num [coquiIntensityScale],
   by norm_num [pyttsxIntensityFactor], by norm_num [pyttsxIntensityFactor],
   fun i j => by unfold coquiIntensityScale; ring,
   fun i j => by unfold pyttsxIntensityFactor; ring⟩

/-- C6 counterexample: for the Coqui "somber" style at intensity 100 the
derived speed parameter is 0.8 divided by the intensity multiplier (8/15),
not the base multiplier 0.8 times the intensity multiplier 1.5 (= 6/5), so
the combination is not multiplicative for that style. -/
theorem c6_counterexample :
    coquiIntensityScale 100 = 3 / 2
    ∧ coquiStyleParams "somber" 100 = some (8 / 15)
    ∧ (8 / 15 : ℚ) ≠ 4 / 5 * (3 / 2) := by
  refine ⟨by norm_num [coquiIntensityScale], ?_, by norm_num⟩
  simp [coquiStyleParams]
  norm_num [coquiIntensityScale]

/-- C6 amended: for every style in the fixed enumeration and intensity in
0-100, the Coqui mapping derives a speed equal to the style's base
multiplier (1.1, 1.0, 0.9) times the intensity multiplier for
enthusiastic / confident / authoritative, derives 0.8 divided by the
intensity multiplier for somber, and derives no parameter for neutral; the
pyttsx3 mapping multiplies base rate and base volume by the style's
multipliers (from the listed table) and the intensity multiplier, then
truncates the rate to an integer and clamps the volume at 1.0. -/
theorem c6_style_combination (i : ℤ) (hlo : 0 ≤ i) (hhi : i ≤ 100) :
    coquiStyleParams "neutral" i = none
    ∧ coquiStyleParams "enthusiastic" i = some (11 / 10 * coquiIntensityScale i)
    ∧ coquiStyleParams "somber" i = some (4 / 5 / coquiIntensityScale i)
    ∧ coquiStyleParams "confident" i = some (1 * coquiIntensityScale i)
    ∧ coquiStyleParams "authoritative" i = some (9 / 10 * coquiIntensityScale i)
    ∧ pyttsxStyleConfig "neutral" = ⟨1, 1⟩
    ∧ pyttsxStyleConfig "enthusiastic" = ⟨13 / 10, 6 / 5⟩
    ∧ pyttsxStyleConfig "somber" = ⟨7 / 10, 4 / 5⟩
    ∧ pyttsxStyleConfig "confident" = ⟨11 / 10, 11 / 10⟩
    ∧ pyttsxStyleConfig "authoritative" = ⟨9 / 10, 1⟩
    ∧ ∀ (br : ℤ) (bv : ℚ) (style : String),
        pyttsxApplyStyle br bv style i
          = (pyTrunc ((br : ℚ) * (pyttsxStyleConfig style).rate_mult
               * pyttsxIntensityFactor i),
             min 1 (bv * (pyttsxStyleConfig style).volume_mult
               * pyttsxIntensityFactor i)) :=
  ⟨by simp [coquiStyleParams], by simp [coquiStyleParams],
   by simp [coquiStyleParams], by simp [coquiStyleParams],
   by simp [coquiStyleParams],
   by simp [pyttsxStyleConfig], by simp [pyttsxStyleConfig],
   by simp [pyttsxStyleConfig], by simp [pyttsxStyleConfig],
   by simp [pyttsxStyleConfig],
   fun br bv style => rfl⟩

/-- C6 amended witness: the somber division and an enthusiastic
multiplication evaluated at intensity 80. -/
theorem c6_style_combination_witness :
    coquiStyleParams "somber" 80 = some (4 / 5 / coquiIntensityScale 80)
    ∧ coquiStyleParams "enthusiastic" 80
        = some (11 / 10 * coquiIntensityScale 80) :=
  ⟨(c6_style_combination 80 (by decide) (by decide)).2.2.1,
   (c6_style_combination 80 (by decide) (by decide)).2.1⟩

/-- C7 counterexample: a synchronous request with non-empty short text and
intensity 150 (outside 0-100) passes the endpoint's validation and the
engine is invoked (the invocation trace is non-empty), contradicting the
claim that out-of-range intensity is rejected before any engine call. -/
theorem c7_counterexample :
    ¬ ((150 : ℤ) ≤ 100)
    ∧ synthesize_speech (DualTTSSystem.mk ⟨true, true⟩ .coqui (some .pyttsx))
        (fun _ => true) ⟨"hi", "neutral", 150, "auto"⟩
      = .ok (true, [EngineId.coqui])
    ∧ ([EngineId.coqui] : List EngineId) ≠ [] := by
  refine ⟨by decide, rfl, by decide⟩

/-- C7 amended: empty or whitespace-only text is rejected before any engine
invocation at all three boundaries; in addition the synchronous HTTP
endpoint rejects text longer than 1000 characters, and the CLI rejects an
intensity outside 0-100 before invoking any engine.  The asynchronous
endpoint checks only emptiness (no length or intensity check), neither HTTP
endpoint validates intensity, and the CLI has no length bound: a CLI run
with valid intensity and non-blank text of any length reaches the
coordinator. -/
theorem c7_validation_per_boundary (sys : DualTTSSystem)
    (beh : EngineId → Bool) (r : TTSRequest) (text : String) (intensity : ℤ)
    (engine : String) (fs : FsState) :
    (strippedEmpty r.text = true →
        synthesize_speech sys beh r = .error "Text cannot be empty"
        ∧ synthesize_speech_async r = .error "Text cannot be empty")
    ∧ (strippedEmpty r.text = false → r.text.length > 1000 →
        synthesize_speech sys beh r = .error "Text too long (max 1000 characters)")
    ∧ (strippedEmpty r.text = false → synthesize_speech_async r = .ok .pending)
    ∧ (¬ (0 ≤ intensity ∧ intensity ≤ 100) →
        cli_main sys beh text intensity engine fs = (2, fs, []))
    ∧ (strippedEmpty text = true →
        (cli_main sys beh text intensity engine fs).2.2 = [])
    ∧ (text ≠ "" → 0 ≤ intensity → intensity ≤ 100 →
        strippedEmpty text = false →
        (cli_main sys beh text intensity engine fs).2.2
          = (sys.synthesize beh engine).2) := by
  refine ⟨?_, ?_, ?_, ?_, ?_, ?_⟩
  · intro h
    exact ⟨by simp [synthesize_speech, h], by simp [synthesize_speech_async, h]⟩
  · intro h hlen
    simp [synthesize_speech, h, hlen]
  · intro h
    simp [synthesize_speech_async, h]
  · intro h
    by_cases he : text = ""
    · simp [cli_main, he]
    · simp [cli_main, he, h]
  · intro h
    by_cases he : text = ""
    · simp [cli_main, he]
    · by_cases hi : 0 ≤ intensity ∧ intensity ≤ 100
      · simp [cli_main, validate_inputs, he, hi, h]
      · simp [cli_main, he, hi]
  · intro he hlo hhi h
    simp [cli_main, validate_inputs, he, hlo, hhi, h]

/-- C7 amended witness: an empty-text request is rejected by the
asynchronous endpoint; an oversized request is rejected by the synchronous
endpoint; intensity 150 makes the CLI bail out before any engine call. -/
theorem c7_validation_per_boundary_witness :
    synthesize_speech_async ⟨"", "neutral", 50, "auto"⟩
      = .error "Text cannot be empty"
    ∧ (cli_main (DualTTSSystem.mk ⟨true, true⟩ .coqui (some .pyttsx))
        (fun _ => true) "x" 150 "auto" ⟨false⟩).2.2 = [] :=
  ⟨((c7_validation_per_boundary
        (DualTTSSystem.mk ⟨true, true⟩ .coqui (some .pyttsx)) (fun _ => true)
        ⟨"", "neutral", 50, "auto"⟩ "x" 150 "auto" ⟨false⟩).1 (by decide)).2,
   by
    have h := (c7_validation_per_boundary
        (DualTTSSystem.mk ⟨true, true⟩ .coqui (some .pyttsx)) (fun _ => true)
        ⟨"", "neutral", 50, "auto"⟩ "x" 150 "auto" ⟨false⟩).2.2.2.1 (by decide)
    rw [h]⟩

/-- Helper: the status a poll observes after `t` writes has rank `min t 2`,
for either task outcome. -/
theorem rank_statusAt (b : Bool) (t : ℕ) : (statusAt b t).rank = min t 2 := by
  rcases t with _ | _ | t
  · cases b <;> rfl
  · cases b <;> rfl
  · have h2 : min (t + 1 + 1) 2 = 2 := by omega
    cases b <;> simp [statusAt, h2, task_status_writes, TaskStatus.rank]

/-- C8: the statuses written to one background task record form exactly the
chain (pending, processing, completed) or (pending, processing, failed), so
the task status is monotonic: any two polls, in order, observe
non-decreasing progress — no observed sequence ever steps backward. -/
theorem c8_status_monotone (sys : DualTTSSystem) (beh : EngineId → Bool)
    (r : TTSRequest) :
    (async_task_statuses sys beh r = [.pending, .processing, .completed]
      ∨ async_task_statuses sys beh r = [.pending, .processing, .failed])
    ∧ ∀ s t : ℕ, s ≤ t →
        (statusAt (sys.synthesize beh r.engine).1 s).rank
          ≤ (statusAt (sys.synthesize beh r.engine).1 t).rank := by
  constructor
  · cases h : (sys.synthesize beh r.engine).1
    · right
      simp [async_task_statuses, task_status_writes, h]
    · left
      simp [async_task_statuses, task_status_writes, h]
  · intro s t hst
    rw [rank_statusAt, rank_statusAt]
    exact min_le_min hst (le_refl 2)

/-- C8 witness: two polls of a concrete task, before processing and after
termination, observe non-decreasing progress. -/
theorem c8_status_monotone_witness :
    (statusAt ((DualTTSSystem.mk ⟨true, true⟩ .coqui (some .pyttsx)).synthesize
        (fun _ => true) "auto").1 0).rank
      ≤ (statusAt ((DualTTSSystem.mk ⟨true, true⟩ .coqui (some .pyttsx)).synthesize
        (fun _ => true) "auto").1 3).rank :=
  (c8_status_monotone (DualTTSSystem.mk ⟨true, true⟩ .coqui (some .pyttsx))
      (fun _ => true) ⟨"hi", "neutral", 50, "auto"⟩).2 0 3 (by decide)

/-- C9 counterexample: a CLI request whose engines all fail reports overall
failure (exit code 1), yet the destination file exists afterwards although
it was absent before the request — `validate_inputs` touched (created) it
as a writability probe and nothing removes it on failure. -/
theorem c9_counterexample :
    cli_main (DualTTSSystem.mk ⟨true, true⟩ .coqui (some .pyttsx))
        (fun _ => false) "Hello" 50 "auto" ⟨false⟩
      = (1, ⟨true⟩, [EngineId.coqui, EngineId.pyttsx])
    ∧ (FsState.mk true).destExists ≠ (FsState.mk false).destExists := by
  refine ⟨by decide, by decide⟩

/-- C9 amended: on the CLI path, once input validation passes, an empty
file exists at the destination (created by the `touch()` writability probe
in `validate_inputs`) and it is left in place when synthesis fails: after
an overall failure the destination file is present, not absent. -/
theorem c9_touch_artifact_remains (sys : DualTTSSystem)
    (beh : EngineId → Bool) (text : String) (intensity : ℤ) (engine : String)
    (fs : FsState) (hne : text ≠ "") (hlo : 0 ≤ intensity)
    (hhi : intensity ≤ 100) (hstrip : strippedEmpty text = false) :
    (cli_main sys beh text intensity engine fs).2.1.destExists = true
    ∧ ((sys.synthesize beh engine).1 = false →
        (cli_main sys beh text intensity engine fs).1 = 1) := by
  constructor
  · simp [cli_main, validate_inputs, hne, hlo, hhi, hstrip]
  · intro hf
    simp [cli_main, validate_inputs, hne, hlo, hhi, hstrip, hf]

/-- C9 amended witness: concrete failing run leaves the touched file at the
destination and exits 1. -/
theorem c9_touch_artifact_remains_witness :
    (cli_main (DualTTSSystem.mk ⟨true, true⟩ .coqui (some .pyttsx))
        (fun _ => false) "Hello" 50 "auto" ⟨false⟩).2.1.destExists = true
    ∧ (cli_main (DualTTSSystem.mk ⟨true, true⟩ .coqui (some .pyttsx))
        (fun _ => false) "Hello" 50 "auto" ⟨false⟩).1 = 1 :=
  ⟨(c9_touch_artifact_remains (DualTTSSystem.mk ⟨true, true⟩ .coqui (some .pyttsx))
      (fun _ => false) "Hello" 50 "auto" ⟨false⟩
      (by decide) (by decide) (by decide) (by decide)).1,
   (c9_touch_artifact_remains (DualTTSSystem.mk ⟨true, true⟩ .coqui (some .pyttsx))
      (fun _ => false) "Hello" 50 "auto" ⟨false⟩
      (by decide) (by decide) (by decide) (by decide)).2 (by decide)⟩
